import Mathlib

/-!
Shallow embedding of the data pipeline of `src/streamlit_app.py`: the
loader/normalizer (lines 9-19), the year bounds (lines 27-28), range
validation and filtering (lines 50-57), the single-target change metrics
(lines 68-78), the percent-of-total series (lines 89-97) and the comparison
tab (lines 110-133).  Numbers are exact rationals; a pandas `NaN` is the
missing value `none`.
-/

namespace CAPop

/-- Missing-aware numeric cell: `none` models a pandas NaN, as produced by
numeric coercion of an unparseable cell or by NaN propagation. -/
abbrev Val := Option ℚ

/-- A normalized data row: the integer Year plus the numeric category cells,
keyed by column name, mirroring one row of the cleaned DataFrame. -/
structure Row where
  year : Int
  cells : List (String × Val)
deriving DecidableEq

/-- The normalized dataset: the category column names (the columns other than
Year) and the rows, mirroring the cleaned DataFrame `df` of lines 9-19. -/
structure Dataset where
  cols : List String
  rows : List Row
deriving DecidableEq

/-- A raw CSV row before normalization: the Year field and the raw text cells
keyed by raw column name. -/
structure RawRow where
  year : Int
  cells : List (String × String)
deriving DecidableEq

/-- A raw CSV table as read by `pd.read_csv` (line 9): the header names other
than Year, and the raw rows. -/
structure RawTable where
  header : List String
  rows : List RawRow
deriving DecidableEq

/-- Artifact-column test of line 10, `df.columns.str.contains("^Unnamed")`:
true when the raw column name starts with "Unnamed". -/
def isUnnamed (s : String) : Bool := "Unnamed".data.isPrefixOf s.data

/-- Column-name whitespace trim of line 11, `df.columns.str.strip()`. -/
def trimName (s : String) : String :=
  String.mk (((s.data.dropWhile Char.isWhitespace).reverse.dropWhile
    Char.isWhitespace).reverse)

/-- Value of a digit run, most significant digit first. -/
def digitsToNat (l : List Char) : Nat :=
  l.foldl (fun a c => 10 * a + (c.toNat - 48)) 0

/-- Unsigned decimal literal parser: a nonempty digit run, optionally followed
by a point and a nonempty fractional digit run. -/
def parseUnsigned (body : List Char) : Option ℚ :=
  let ip := body.takeWhile Char.isDigit
  let rest := body.dropWhile Char.isDigit
  if ip.isEmpty then none
  else
    match rest with
    | [] => some (digitsToNat ip)
    | c :: fp =>
      if c = '.' then
        if !fp.isEmpty && fp.all Char.isDigit then
          some ((digitsToNat ip : ℚ) + (digitsToNat fp : ℚ) / ((10 : ℚ) ^ fp.length))
        else none
      else none

/-- Numeric coercion of one cell, modelling `pd.to_numeric(errors="coerce")`
of line 16 on decimal literals: an optional sign followed by an unsigned
decimal literal parses to its value, and any other text is unparseable and
becomes the missing value `none` (pandas NaN). -/
def toNumeric (s : String) : Val :=
  match s.data with
  | [] => none
  | c :: cs =>
    if c = '-' then (parseUnsigned cs).map (fun q => -q)
    else if c = '+' then parseUnsigned cs
    else parseUnsigned (c :: cs)

/-- Normalization of one raw row, lines 10-16: drop the Unnamed artifact
columns, trim the remaining column names, coerce every cell to a number. -/
def normalizeRow (r : RawRow) : Row :=
  ⟨r.year,
   (r.cells.filter (fun p => !isUnnamed p.1)).map
     (fun p => (trimName p.1, toNumeric p.2))⟩

/-- Year ordering on rows used by `df.sort_values("Year")` at line 19. -/
def rowLE (a b : Row) : Prop := a.year ≤ b.year

instance : DecidableRel rowLE :=
  fun a b => (inferInstance : Decidable (a.year ≤ b.year))

instance : IsTotal Row rowLE := ⟨fun a b => Int.le_total a.year b.year⟩

instance : IsTrans Row rowLE := ⟨fun _ _ _ h1 h2 => le_trans h1 h2⟩

/-- The loader/normalizer of lines 9-19: drop Unnamed columns, trim column
names, coerce every non-Year cell to a number, and sort the rows ascending
by Year. -/
def normalize (T : RawTable) : Dataset :=
  ⟨(T.header.filter (fun h => !isUnnamed h)).map trimName,
   List.insertionSort rowLE (T.rows.map normalizeRow)⟩

/-- Value of column `c` in row `r` (pandas cell access); a column absent from
the row is missing. -/
def getVal (r : Row) (c : String) : Val :=
  ((r.cells.find? (fun p => decide (p.1 = c))).map Prod.snd).join

/-- Failure taxonomy of the app: rejected range (line 50), empty filtered
view (line 56), endpoint year absent (line 71), the Python ValueError raised
by int() on a NaN endpoint value (lines 74-75), and the absent Total column
in the comparison tab (line 133). -/
inductive Err
  | invalidRange
  | emptyRange
  | yearNotFound
  | valueErrorNaN
  | missingTotal
deriving DecidableEq

/-- Inclusive year-range filter: the mask of line 53 applied at line 54. -/
def filterRows (d : Dataset) (s e : Int) : List Row :=
  d.rows.filter (fun r => decide (s ≤ r.year) && decide (r.year ≤ e))

/-- Range validation and filtering of lines 50-57: reject start > end, then
reject an empty filtered view, otherwise return the filtered view. -/
def validateAndFilter (d : Dataset) (s e : Int) : Except Err (List Row) :=
  if s > e then .error .invalidRange
  else if (filterRows d s e).isEmpty then .error .emptyRange
  else .ok (filterRows d s e)

/-- Endpoint lookup of lines 68-69: the series `df.loc[df.Year == y, c]`
reduced to its first element as at lines 74-75.  `none` when no row has
Year = y (the series is empty); otherwise `some` of the first matching
row's cell value (which may itself be missing). -/
def lookupYear (d : Dataset) (y : Int) (c : String) : Option Val :=
  ((d.rows.filter (fun r => decide (r.year = y))).head?).map (fun r => getVal r c)

/-- Python int() truncation toward zero of an exact cell value. -/
def intTrunc (q : ℚ) : Int := Int.tdiv q.num (q.den : Int)

/-- Nearest integer with ties to even, the rounding used by Python round(). -/
def roundHalfEven (q : ℚ) : Int :=
  let f := Int.fdiv q.num (q.den : Int)
  let r := q - (f : ℚ)
  if r < 1/2 then f
  else if 1/2 < r then f + 1
  else if f % 2 = 0 then f else f + 1

/-- Python round(x, 2): round to two decimal places. -/
def round2 (q : ℚ) : ℚ := (roundHalfEven (q * 100) : ℚ) / 100

/-- Result of the single-target change computation of lines 74-78. -/
structure ChangeResult where
  initial : Int
  final : Int
  percentChange : ℚ
deriving DecidableEq

/-- Single-target change metrics of lines 68-78: look up the rows with
Year = s and Year = e in the full dataset, fail when either series is empty
(line 71), then truncate both endpoint values with int() - which raises
ValueError when the value is missing - and compute the zero-guarded percent
change of line 76. -/
def changeMetrics (d : Dataset) (target : String) (s e : Int) :
    Except Err ChangeResult :=
  match lookupYear d s target, lookupYear d e target with
  | none, _ => .error .yearNotFound
  | some _, none => .error .yearNotFound
  | some iv, some fv =>
    match iv, fv with
    | some i, some f =>
      let initial := intTrunc i
      let final := intTrunc f
      let pct :=
        if initial ≠ 0 then
          round2 (((final : ℚ) - (initial : ℚ)) / (initial : ℚ) * 100)
        else 0
      .ok ⟨initial, final, pct⟩
    | _, _ => .error .valueErrorNaN

/-- Pandas elementwise division with NaN propagation; a zero denominator is
modelled as missing. -/
def odiv : Val → Val → Val
  | some a, some b => if b = 0 then none else some (a / b)
  | _, _ => none

/-- Pandas elementwise multiplication with NaN propagation. -/
def omul : Val → Val → Val
  | some a, some b => some (a * b)
  | _, _ => none

/-- Column series over a list of rows, `rows[c]`. -/
def colSeries (rows : List Row) (c : String) : List Val :=
  rows.map (fun r => getVal r c)

/-- Vectorized percent-of-total series
`(filtered_df[c] / filtered_df["Total"]) * 100.0` of lines 90 and 124. -/
def pctSeries (rows : List Row) (c : String) : List Val :=
  (List.zipWith odiv (colSeries rows c) (colSeries rows "Total")).map
    (fun x => omul x (some 100))

/-- Column-presence test, pandas `c in df.columns`. -/
def hasCol (d : Dataset) (c : String) : Bool :=
  d.cols.any (fun x => decide (x = c))

/-- Single-series percent-of-total chart data, produced only when Total
exists and the target is not Total itself (guard of line 89). -/
def pctOfTotalSingle (d : Dataset) (s e : Int) (target : String) :
    Option (List Val) :=
  if hasCol d "Total" && !(decide (target = "Total")) then
    some (pctSeries (filterRows d s e) target)
  else none

instance {α β : Type} [DecidableEq α] [DecidableEq β] :
    DecidableEq (Except α β) := fun x y =>
  match x, y with
  | .error a, .error b =>
    if h : a = b then isTrue (by rw [h])
    else isFalse (fun hh => h (by cases hh; rfl))
  | .error a, .ok b => isFalse (fun hh => Except.noConfusion hh)
  | .ok a, .error b => isFalse (fun hh => Except.noConfusion hh)
  | .ok a, .ok b =>
    if h : a = b then isTrue (by rw [h])
    else isFalse (fun hh => h (by cases hh; rfl))

/-- Output of the comparison tab, lines 110-133: the absolute series, and the
percent series or the failure that disables only the percentage chart. -/
structure CompareOut where
  absolute : List (String × List Val)
  percent : Except Err (List (String × List Val))
deriving DecidableEq

/-- Comparison computation of lines 110-133: nothing is drawn without a
selected category; otherwise one absolute series per category, and the
percent series when Total is present, else MissingTotalError for the
percentage chart alone. -/
def compareTargets (d : Dataset) (s e : Int) (cats : List String) :
    Option CompareOut :=
  if cats.isEmpty then none
  else some
    ⟨cats.map (fun c => (c, colSeries (filterRows d s e) c)),
     if hasCol d "Total" then
       .ok (cats.map (fun c => (c, pctSeries (filterRows d s e) c)))
     else .error .missingTotal⟩

/-- Year bounds of lines 27-28, `int(df["Year"].min())` and the max: on an
empty dataset the pandas min is NaN and int() raises, modelled as `none`. -/
def yearBounds (d : Dataset) : Option (Int × Int) :=
  match d.rows.map Row.year with
  | [] => none
  | y :: ys => some (ys.foldl min y, ys.foldl max y)

/-- Specification formula for percent-of-total: per row, the category value
divided by the row's Total value, times 100 (spec section 4.2, e and f). -/
def pctFormula (r : Row) (c : String) : Val :=
  omul (odiv (getVal r c) (getVal r "Total")) (some 100)

/-- Sample row for 2015 used by the concrete witnesses. -/
def rowA : Row := ⟨2015, [("Black", some 20), ("Total", some 100)]⟩

/-- Sample row for 2020 used by the concrete witnesses. -/
def rowB : Row := ⟨2020, [("Black", some 10), ("Total", some 50)]⟩

/-- Sample dataset from the spec's worked example. -/
def sampleD : Dataset := ⟨["Black", "Total"], [rowA, rowB]⟩

/-- Raw table with an unparseable cell and no Total column. -/
def rawNA : RawTable :=
  ⟨["Black"], [⟨2001, [("Black", "5")]⟩, ⟨2000, [("Black", "N/A")]⟩]⟩

/-- Raw table with two rows sharing Year 2000. -/
def rawDup : RawTable :=
  ⟨["Black"], [⟨2000, [("Black", "7")]⟩, ⟨2000, [("Black", "9")]⟩]⟩

set_option maxRecDepth 2000

/-- Shared evaluation lemma for the change metrics on two present, non-missing
endpoint values: the result is exactly line 74-76 of the source, with int()
truncation and the zero-guarded rounded percent change. -/
theorem changeMetrics_ok (d : Dataset) (t : String) (s e : Int) (i f : ℚ)
    (hi : lookupYear d s t = some (some i))
    (hf : lookupYear d e t = some (some f)) :
    changeMetrics d t s e = .ok ⟨intTrunc i, intTrunc f,
      if intTrunc i ≠ 0 then
        round2 (((intTrunc f : ℚ) - (intTrunc i : ℚ)) / (intTrunc i : ℚ) * 100)
      else 0⟩ := by
  simp [changeMetrics, hi, hf]

/-- Shared evaluation lemma: rounding zero to two decimals gives zero. -/
theorem round2_zero : round2 0 = 0 := by with_unfolding_all decide

/-- C1: for every dataset and target, when rows exist at both endpoint years
and carry non-missing values i and f, the change metric returns the
integer-truncated endpoint values together with
round((final - initial) / initial * 100, 2) when the truncated initial value
is nonzero, and 0.0 when it is zero. -/
theorem change_metrics_formula (d : Dataset) (t : String) (s e : Int)
    (i f : ℚ)
    (hi : lookupYear d s t = some (some i))
    (hf : lookupYear d e t = some (some f)) :
    changeMetrics d t s e = .ok ⟨intTrunc i, intTrunc f,
      if intTrunc i ≠ 0 then
        round2 (((intTrunc f : ℚ) - (intTrunc i : ℚ)) / (intTrunc i : ℚ) * 100)
      else 0⟩ :=
  changeMetrics_ok d t s e i f hi hf

/-- C1 witness: the formula instantiated on the sample dataset, with the
fully evaluated result: a change from 20 to 10 is reported as -50 percent. -/
theorem change_metrics_formula_witness :
    lookupYear sampleD 2015 "Black" = some (some 20) ∧
    lookupYear sampleD 2020 "Black" = some (some 10) ∧
    changeMetrics sampleD "Black" 2015 2020 =
      .ok ⟨intTrunc 20, intTrunc 10,
        if intTrunc (20 : ℚ) ≠ 0 then
          round2 (((intTrunc (10 : ℚ) : ℚ) - (intTrunc (20 : ℚ) : ℚ)) /
            (intTrunc (20 : ℚ) : ℚ) * 100)
        else 0⟩ ∧
    changeMetrics sampleD "Black" 2015 2020 = .ok ⟨20, 10, -50⟩ :=
  ⟨by decide, by decide,
   change_metrics_formula sampleD "Black" 2015 2020 20 10 (by decide) (by decide),
   by with_unfolding_all decide⟩

/-- C3: a query with start_year > end_year is rejected with InvalidRangeError
and nothing else is computed, while a query with start_year ≤ end_year passes
validation and proceeds to filtering (returning the filtered view or, at
worst, EmptyRangeError - never InvalidRangeError). -/
theorem range_validation (d : Dataset) (s e : Int) :
    (s > e → validateAndFilter d s e = .error .invalidRange) ∧
    (s ≤ e → validateAndFilter d s e = .error .emptyRange ∨
      validateAndFilter d s e = .ok (filterRows d s e)) := by
  constructor
  · intro h
    simp [validateAndFilter, h]
  · intro h
    by_cases hf : (filterRows d s e).isEmpty
    · left
      simp [validateAndFilter, not_lt.mpr h, hf]
    · right
      simp [validateAndFilter, not_lt.mpr h, hf]

/-- C3 witness: a reversed range on the sample dataset is rejected, and the
correctly ordered range proceeds to the filtered view. -/
theorem range_validation_witness :
    validateAndFilter sampleD 2020 2015 = .error .invalidRange ∧
    validateAndFilter sampleD 2015 2020 = .ok (filterRows sampleD 2015 2020) := by
  constructor
  · exact (range_validation sampleD 2020 2015).1 (by decide)
  · rcases (range_validation sampleD 2015 2020).2 (by decide) with h | h
    · exact absurd h (by decide)
    · exact h

/-- C9: the year bounds are defined exactly on the non-empty datasets - on a
dataset with zero rows the pandas min is NaN and int() fails, modelled as
`none`. -/
theorem year_bounds_empty (d : Dataset) :
    yearBounds d = none ↔ d.rows = [] := by
  rcases hd : d.rows with _ | ⟨a, l⟩ <;> simp [yearBounds, hd]

/-- C9 witness: the bounds fail on the empty dataset and succeed on the
sample dataset. -/
theorem year_bounds_empty_witness :
    yearBounds (⟨[], []⟩ : Dataset) = none ∧ yearBounds sampleD ≠ none :=
  ⟨(year_bounds_empty ⟨[], []⟩).mpr rfl,
   fun h => List.noConfusion ((year_bounds_empty sampleD).mp h)⟩

/-- C4: for a valid range, the filter returns exactly the subsequence of
dataset rows whose Year lies in the inclusive range (in dataset order), and
EmptyRangeError is raised if and only if that subsequence is empty. -/
theorem filter_view_exact (d : Dataset) (s e : Int) (h : s ≤ e) :
    (validateAndFilter d s e = .error .emptyRange ↔ filterRows d s e = []) ∧
    (filterRows d s e ≠ [] →
      validateAndFilter d s e = .ok (filterRows d s e)) ∧
    (filterRows d s e).Sublist d.rows ∧
    (∀ r : Row, r ∈ filterRows d s e ↔
      r ∈ d.rows ∧ s ≤ r.year ∧ r.year ≤ e) := by
  have hnl : ¬ s > e := not_lt.mpr h
  refine ⟨?_, ?_, List.filter_sublist _, ?_⟩
  · constructor
    · intro hv
      by_cases hf : (filterRows d s e).isEmpty
      · exact List.isEmpty_iff.mp hf
      · simp [validateAndFilter, hnl, hf] at hv
    · intro hf
      simp [validateAndFilter, hnl, List.isEmpty_iff, hf]
  · intro hf
    simp [validateAndFilter, hnl, List.isEmpty_iff, hf]
  · intro r
    simp [filterRows, List.mem_filter]

/-- C4 witness: on the sample dataset the full range is accepted, and the
sample row's membership in the filtered view matches the inclusive bound
test. -/
theorem filter_view_exact_witness :
    validateAndFilter sampleD 2015 2020 = .ok (filterRows sampleD 2015 2020) ∧
    (rowA ∈ filterRows sampleD 2015 2020 ↔
      rowA ∈ sampleD.rows ∧ (2015 : Int) ≤ rowA.year ∧ rowA.year ≤ 2020) :=
  ⟨(filter_view_exact sampleD 2015 2020 (by decide)).2.1 (by decide),
   (filter_view_exact sampleD 2015 2020 (by decide)).2.2.2 rowA⟩

/-- C5: the change metric looks up the endpoint years by exact equality on
the full dataset; when either endpoint year has no row at all the result is
YearNotFoundError, an error distinct from EmptyRangeError. -/
theorem year_not_found (d : Dataset) (t : String) (s e : Int)
    (h : (∀ r ∈ d.rows, r.year ≠ s) ∨ (∀ r ∈ d.rows, r.year ≠ e)) :
    changeMetrics d t s e = .error .yearNotFound ∧
    Err.yearNotFound ≠ Err.emptyRange := by
  refine ⟨?_, by decide⟩
  have hnil : ∀ y : Int, (∀ r ∈ d.rows, r.year ≠ y) →
      d.rows.filter (fun x => decide (x.year = y)) = [] := by
    intro y hy
    refine List.filter_eq_nil_iff.mpr ?_
    intro a ha
    simp [hy a ha]
  rcases h with h | h
  · have hs : lookupYear d s t = none := by simp [lookupYear, hnil s h]
    simp [changeMetrics, hs]
  · have he : lookupYear d e t = none := by simp [lookupYear, hnil e h]
    cases hs : lookupYear d s t <;> simp [changeMetrics, hs, he]

/-- C5 witness: year 2016 has no row in the sample dataset, so the change
metric fails with YearNotFoundError there. -/
theorem year_not_found_witness :
    changeMetrics sampleD "Black" 2016 2020 = .error .yearNotFound ∧
    Err.yearNotFound ≠ Err.emptyRange :=
  year_not_found sampleD "Black" 2016 2020 (Or.inl (by decide))

/-- C10: when several dataset rows share the endpoint year, the change metric
reads the value of the first such row in the normalized order and ignores the
later duplicates; in particular with start = end it reports that first row's
truncated value and a zero percent change. -/
theorem first_matching_row_used (d : Dataset) (t : String) (y : Int)
    (pre post : List Row) (r : Row)
    (hd : d.rows = pre ++ r :: post)
    (hpre : ∀ x ∈ pre, x.year ≠ y) (hr : r.year = y) :
    lookupYear d y t = some (getVal r t) ∧
    (∀ v : ℚ, getVal r t = some v →
      changeMetrics d t y y = .ok ⟨intTrunc v, intTrunc v, 0⟩) := by
  have h1 : pre.filter (fun x => decide (x.year = y)) = [] := by
    refine List.filter_eq_nil_iff.mpr ?_
    intro a ha
    simp [hpre a ha]
  have hfil : d.rows.filter (fun x => decide (x.year = y)) =
      r :: post.filter (fun x => decide (x.year = y)) := by
    rw [hd, List.filter_append, h1, List.nil_append, List.filter_cons,
      if_pos (by simp [hr])]
  have hlook : lookupYear d y t = some (getVal r t) := by
    simp [lookupYear, hfil]
  refine ⟨hlook, ?_⟩
  intro v hv
  have hl : lookupYear d y t = some (some v) := by rw [hlook, hv]
  have hok := changeMetrics_ok d t y y v v hl hl
  have hz : ((intTrunc v : ℚ) - (intTrunc v : ℚ)) / (intTrunc v : ℚ) * 100 = 0 := by
    rw [sub_self]
    simp
  rw [hok, hz, round2_zero, ite_self]

set_option maxRecDepth 8000 in
/-- C10 witness: the normalized duplicate-year table keeps both year-2000
rows; the change metric on year 2000 uses the first one (value 7, not 9). -/
theorem first_matching_row_used_witness :
    lookupYear (normalize rawDup) 2000 "Black" = some (some 7) ∧
    changeMetrics (normalize rawDup) "Black" 2000 2000 = .ok ⟨7, 7, 0⟩ := by
  have h := first_matching_row_used (normalize rawDup) "Black" 2000
    [] [⟨2000, [("Black", some 9)]⟩] ⟨2000, [("Black", some 7)]⟩
    (by with_unfolding_all decide) (by simp) rfl
  constructor
  · rw [h.1]
    with_unfolding_all decide
  · have h2 := h.2 7 (by decide)
    rw [h2]
    with_unfolding_all decide

/-- C6 counterexample: a source with two year-2000 rows normalizes to a
dataset whose rows are not unique per Year - the loader never deduplicates. -/
theorem duplicate_years_survive_normalize :
    ((normalize rawDup).rows.map Row.year) = [2000, 2000] ∧
    ¬ ((normalize rawDup).rows.map Row.year).Nodup := by
  constructor
  · with_unfolding_all decide
  · with_unfolding_all decide

/-- C6 amended: after normalization the rows are sorted ascending by Year for
every input source, and they are unique per Year whenever the source rows had
distinct Year values; uniqueness is not enforced for sources with duplicate
years. -/
theorem normalize_sorted (T : RawTable) :
    List.Sorted rowLE (normalize T).rows ∧
    ((T.rows.map RawRow.year).Nodup →
      ((normalize T).rows.map Row.year).Nodup) := by
  constructor
  · exact List.sorted_insertionSort rowLE _
  · intro h
    have hperm : ((normalize T).rows).Perm (T.rows.map normalizeRow) :=
      List.perm_insertionSort rowLE _
    have h2 := hperm.map Row.year
    rw [List.map_map] at h2
    have h3 : (Row.year ∘ normalizeRow) = RawRow.year := rfl
    rw [h3] at h2
    exact h2.nodup_iff.mpr h

/-- C6 amended witness: the table with the unparseable cell has distinct
years, and its normalization is sorted with unique years. -/
theorem normalize_sorted_witness :
    List.Sorted rowLE (normalize rawNA).rows ∧
    ((normalize rawNA).rows.map Row.year).Nodup :=
  ⟨(normalize_sorted rawNA).1, (normalize_sorted rawNA).2 (by decide)⟩

/-- C2 counterexample: the cell "N/A" is coerced to missing by the loader,
the row for year 2000 exists with a missing value, and the change metric on
that dataset raises (the int() ValueError of line 74), it does not yield a
missing result: the claim that no metric computation fails on a missing
value is false. -/
theorem missing_value_crashes_change_metrics :
    toNumeric "N/A" = none ∧
    lookupYear (normalize rawNA) 2000 "Black" = some none ∧
    changeMetrics (normalize rawNA) "Black" 2000 2001 =
      .error .valueErrorNaN := by
  refine ⟨by decide, ?_, ?_⟩
  · with_unfolding_all decide
  · with_unfolding_all decide

/-- C2 amended: an unparseable cell becomes the missing value in the
normalized row; missing values propagate through the percent-of-total
arithmetic (division and multiplication yield missing, never an error); but
the change metric applies int() to an endpoint value, which raises
(ValueError) when that value is missing instead of propagating it. -/
theorem missing_value_propagation :
    (∀ (r : RawRow) (nm cell : String), (nm, cell) ∈ r.cells →
      toNumeric cell = none → isUnnamed nm = false →
      (trimName nm, (none : Val)) ∈ (normalizeRow r).cells) ∧
    (∀ a : Val, odiv none a = none ∧ odiv a none = none ∧
      omul none a = none ∧ omul a none = none) ∧
    (∀ (d : Dataset) (t : String) (s e : Int) (fv : Val),
      lookupYear d s t = some none → lookupYear d e t = some fv →
      changeMetrics d t s e = .error .valueErrorNaN) := by
  refine ⟨?_, ?_, ?_⟩
  · intro r nm cell hmem hcoerce hkeep
    have hf : (nm, cell) ∈ r.cells.filter (fun p => !isUnnamed p.1) :=
      List.mem_filter.mpr ⟨hmem, by simp [hkeep]⟩
    have := List.mem_map_of_mem
      (fun p : String × String => (trimName p.1, toNumeric p.2)) hf
    simpa [normalizeRow, hcoerce] using this
  · intro a
    cases a <;> simp [odiv, omul]
  · intro d t s e fv h1 h2
    cases fv <;> simp [changeMetrics, h1, h2]

/-- C2 amended witness: the N/A cell lands as a missing cell in the
normalized row, missing propagates through a division, and the change metric
on the dataset with the missing year-2000 value raises instead of returning
a missing result. -/
theorem missing_value_propagation_witness :
    (trimName "Black", (none : Val)) ∈
      (normalizeRow ⟨2000, [("Black", "N/A")]⟩).cells ∧
    odiv none (some 3) = none ∧
    changeMetrics (normalize rawNA) "Black" 2000 2001 =
      .error .valueErrorNaN := by
  refine ⟨?_, ?_, ?_⟩
  · exact missing_value_propagation.1 ⟨2000, [("Black", "N/A")]⟩ "Black" "N/A"
      (by decide) (by decide) (by decide)
  · exact (missing_value_propagation.2.1 (some 3)).1
  · exact missing_value_propagation.2.2 (normalize rawNA) "Black" 2000 2001
      (some 5) (by with_unfolding_all decide) (by with_unfolding_all decide)

/-- Shared elementwise refinement of the vectorized pandas expression: a
zipWith of two column maps over the same rows, post-multiplied, is the
rowwise map of the combined formula. -/
theorem zipWith_map_rowwise {α β γ δ : Type} (f g : α → β)
    (h : β → β → γ) (k : γ → δ) (l : List α) :
    (List.zipWith h (l.map f) (l.map g)).map k
      = l.map (fun x => k (h (f x) (g x))) := by
  induction l with
  | nil => rfl
  | cons a l ih => simp [ih]

/-- C7: the percent-of-total series - the one of the single-target tab and
the one per category of the comparison tab - is the rowwise formula
value-at-category divided by value-at-Total times 100 over the filtered
view; on a row with non-missing values and nonzero Total it equals exactly
value / total * 100. -/
theorem pct_of_total_formula (d : Dataset) (s e : Int) (c : String) :
    pctSeries (filterRows d s e) c
      = (filterRows d s e).map (fun r => pctFormula r c) ∧
    (∀ (r : Row) (v t : ℚ), getVal r c = some v → getVal r "Total" = some t →
      t ≠ 0 → pctFormula r c = some (v / t * 100)) ∧
    (∀ L, pctOfTotalSingle d s e c = some L →
      L = (filterRows d s e).map (fun r => pctFormula r c)) ∧
    (∀ (cats : List String) (out : CompareOut),
      compareTargets d s e cats = some out →
      ∀ res, out.percent = .ok res → c ∈ cats →
        (c, (filterRows d s e).map (fun r => pctFormula r c)) ∈ res) := by
  have key : ∀ (rows : List Row) (cc : String),
      pctSeries rows cc = rows.map (fun r => pctFormula r cc) := by
    intro rows cc
    unfold pctSeries colSeries pctFormula
    exact zipWith_map_rowwise _ _ _ _ rows
  refine ⟨key _ c, ?_, ?_, ?_⟩
  · intro r v t hv ht htz
    simp [pctFormula, hv, ht, odiv, omul, htz]
  · intro L hL
    unfold pctOfTotalSingle at hL
    split at hL
    · cases hL
      exact key _ c
    · exact absurd hL (by simp)
  · intro cats out hout res hres hc
    unfold compareTargets at hout
    split at hout
    · exact absurd hout (by simp)
    · cases hout
      by_cases hTot : hasCol d "Total" = true
      · simp only [hTot, if_true] at hres
        cases hres
        rw [← key _ c]
        exact List.mem_map_of_mem
          (fun x => (x, pctSeries (filterRows d s e) x)) hc
      · simp only [Bool.not_eq_true] at hTot
        simp [hTot] at hres

/-- C7 witness: on the sample 2020 row, Black 10 of Total 50 is reported as
10 / 50 * 100 percent. -/
theorem pct_of_total_formula_witness :
    pctFormula rowB "Black" = some ((10 : ℚ) / 50 * 100) :=
  (pct_of_total_formula sampleD 2015 2020 "Black").2.1 rowB 10 50
    (by decide) (by decide) (by decide)

/-- C8: with at least one selected category and no Total column, the
comparison still produces every absolute series, while the percent output
alone fails with MissingTotalError. -/
theorem compare_missing_total (d : Dataset) (s e : Int) (cats : List String)
    (hcats : cats ≠ []) (htot : hasCol d "Total" = false) :
    compareTargets d s e cats =
      some ⟨cats.map (fun c => (c, colSeries (filterRows d s e) c)),
            .error .missingTotal⟩ := by
  simp [compareTargets, List.isEmpty_iff, hcats, htot]

/-- C8 witness: on the normalized Total-free table, comparing Black yields
its absolute series (with the missing 2000 value and the 2001 value 5), and
the percentage output fails with MissingTotalError. -/
theorem compare_missing_total_witness :
    compareTargets (normalize rawNA) 2000 2001 ["Black"] =
      some ⟨[("Black", colSeries (filterRows (normalize rawNA) 2000 2001) "Black")],
            .error .missingTotal⟩ ∧
    colSeries (filterRows (normalize rawNA) 2000 2001) "Black" =
      [none, some 5] := by
  constructor
  · exact compare_missing_total (normalize rawNA) 2000 2001 ["Black"]
      (by decide) (by decide)
  · with_unfolding_all decide

end CAPop
